import Mathlib

/-!
# sockv5er: SOCKS5-over-SSH tunnel (`utils/ssh_helper.go`)

A shallow embedding of `SSHConfig.connectToSSH`, `cleanup` and
`SSHConfig.StartSocksV5Server`.

* The process-wide resources the code touches (the logging sink, the SSH session,
  the SOCKS5 listener, signal registrations, the exit status) are the fields of
  `World`; every statement with an effect is a function `World → World`.
* The results of the library calls (`ssh.ParsePrivateKey`, `ssh.Dial`,
  `(*ssh.Client).Dial`, `(*ssh.Client).Close`, `socks5.New`, `net.Listen`) are
  parameters, collected in `Env`.
* `StartSocksV5Server` runs three flows (the calling flow, the SOCKS5 goroutine
  and the signal-handler goroutine the latter starts).  Each flow is a program
  counter; `step` executes one statement of one flow, or one event of the
  environment (a signal, the return of `ListenAndServe`); a run is a list of
  such actions, executed by `exec`.
-/

namespace Sockv5er

/-! ## Data model -/

/-- The content of a Go byte slice. -/
abbrev Bytes := List Nat

/-- Handle of an `*ssh.Client`. -/
abbrev Client := Nat

/-- Handle of a `net.Conn`. -/
abbrev Conn := Nat

/-- A `context.Context`; the code never inspects it. -/
abbrev Ctx := Nat

/-- An SSH public key blob, as presented by a server. -/
abbrev PublicKey := String

/-- The operating-system signals of interest; `SIGHUP` stands for a signal the
code never registers for. -/
inductive Signal where
  | SIGINT
  | SIGTERM
  | SIGHUP
deriving DecidableEq, Repr

/-- The logrus levels the code uses. -/
inductive Level where
  | info
  | warn
  | fatal
deriving DecidableEq, Repr

/-- The struct `SSHConfig` (lines 16-24). -/
structure SSHConfig where
  PrivateKey : Bytes
  KnownHostsFilepath : String
  SSHHost : String
  SSHPort : String
  SSHUsername : String
  SocksV5IP : String
  SocksV5Port : String
deriving DecidableEq, Repr

/-- An `ssh.Signer`, the result of parsing a private key. -/
structure Signer where
  id : Nat
deriving DecidableEq, Repr

/-- The `ssh.AuthMethod` values the code builds. -/
inductive AuthMethod where
  | PublicKeys (signers : List Signer)
deriving DecidableEq, Repr

/-- The host-key callbacks: `ssh.InsecureIgnoreHostKey()`, the only one the code
builds, and `KnownHosts`, which follows the words of the specification
(section 4.1, policy ii: verify the presented host key against entries loaded
from a caller-supplied source) and which the code never builds. -/
inductive HostKeyCallback where
  | InsecureIgnoreHostKey
  | KnownHosts (files : List String)
deriving DecidableEq, Repr

/-- The fields of `ssh.ClientConfig` the code sets (lines 86-90). -/
structure ClientConfig where
  User : String
  Auth : List AuthMethod
  HostKeyCallback : HostKeyCallback
deriving DecidableEq, Repr

/-- The two channels `StartSocksV5Server` creates: `ch` (line 67) and `exitCh`
(line 57). -/
inductive Chan where
  | ch
  | exitCh
deriving DecidableEq, Repr

/-- The SSH session of the process. -/
inductive Session where
  | absent
  | established (c : Client)
  | closed (c : Client)
deriving DecidableEq, Repr

/-- The SOCKS5 listener of the process. -/
inductive Listener where
  | unbound
  | listening (network addr : String)
  | closed
deriving DecidableEq, Repr

/-- Whether the process is alive, and how it ended. -/
inductive Status where
  | running
  | exited (code : Nat)
  | killed (sig : Signal)
deriving DecidableEq, Repr

/-- The resources of the process and the effects it has had on its
surroundings. -/
structure World where
  /-- the lines handed to the logging sink, oldest first -/
  logs : List (Level × String)
  /-- the lines printed with `fmt.Println` -/
  stdout : List String
  /-- the calls of `ssh.Dial`: network, address and client configuration; each
  one opens a TCP connection to the address -/
  sshDials : List (String × String × ClientConfig)
  session : Session
  /-- the calls of `(*ssh.Client).Close` -/
  closes : List Client
  /-- the streams opened over an SSH session: client, network, address -/
  channels : List (Client × String × String)
  listener : Listener
  /-- the calls of `signal.Notify` -/
  notify : List (Chan × List Signal)
  status : Status
deriving DecidableEq, Repr

/-- The world a process starts in. -/
def World.start : World :=
  { logs := [], stdout := [], sshDials := [], session := .absent, closes := [],
    channels := [], listener := .unbound, notify := [], status := .running }

/-- The type of `socks5.Config.Dial`. -/
abbrev DialFunc := Ctx → String → String → World → Except String Conn × World

/-- The field of `socks5.Config` the code sets; `none` is Go's nil, for which
the library dials directly with `net.Dial`. -/
structure Socks5Config where
  Dial : Option DialFunc

/-- A `*socks5.Server`; it keeps the configuration it was created from. -/
structure Server where
  config : Socks5Config

/-- The results of the library calls, as parameters. -/
structure Env where
  /-- `ssh.ParsePrivateKey` -/
  ParsePrivateKey : Bytes → Except String Signer
  /-- the outcome of `ssh.Dial` on a network, an address and a configuration -/
  sshDial : String → String → ClientConfig → Except String Client
  /-- the outcome of `(*ssh.Client).Dial` on a network and an address -/
  clientDial : Client → String → String → Except String Conn
  /-- the error of `(*ssh.Client).Close`, if any -/
  clientClose : Client → Option String
  /-- the error of `socks5.New`, if any -/
  socks5New : Socks5Config → Option String
  /-- the error of `net.Listen` inside `ListenAndServe`, if any -/
  netListen : String → String → Option String

/-! ## Library calls as effects on the world -/

/-- `log.Infoln`: one line at INFO. -/
def log.Infoln (msg : String) (w : World) : World :=
  { w with logs := w.logs ++ [(Level.info, msg)] }

/-- `log.Warnf`, the message already formatted. -/
def log.Warnf (msg : String) (w : World) : World :=
  { w with logs := w.logs ++ [(Level.warn, msg)] }

/-- `log.Fatalf`, the message already formatted: logrus writes the line and
calls `os.Exit(1)`; deferred calls do not run. -/
def log.Fatalf (msg : String) (w : World) : World :=
  { w with logs := w.logs ++ [(Level.fatal, msg)], status := .exited 1 }

/-- `fmt.Println`. -/
def fmt.Println (msg : String) (w : World) : World :=
  { w with stdout := w.stdout ++ [msg] }

/-- `os.Exit`. -/
def os.Exit (code : Nat) (w : World) : World :=
  { w with status := .exited code }

/-- `signal.Notify(c, sigs...)`. -/
def signal.Notify (c : Chan) (sigs : List Signal) (w : World) : World :=
  { w with notify := w.notify ++ [(c, sigs)] }

/-- `ssh.Dial(network, addr, conf)`: opens a TCP connection to `addr` and runs
the SSH handshake; on success the session exists. -/
def ssh.Dial (env : Env) (network addr : String) (conf : ClientConfig) (w : World) :
    Except String Client × World :=
  let w1 := { w with sshDials := w.sshDials ++ [(network, addr, conf)] }
  match env.sshDial network addr conf with
  | .ok c => (.ok c, { w1 with session := .established c })
  | .error e => (.error e, w1)

/-- `sshConn.Dial(network, addr)` for an `*ssh.Client`: opens a stream over the
session; no TCP connection is opened by the local host. -/
def Client.Dial (env : Env) (sshConn : Client) (network addr : String) (w : World) :
    Except String Conn × World :=
  (env.clientDial sshConn network addr,
    { w with channels := w.channels ++ [(sshConn, network, addr)] })

/-- `sshConn.Close()` for an `*ssh.Client`. -/
def Client.Close (env : Env) (sshConn : Client) (w : World) : Option String × World :=
  (env.clientClose sshConn,
    { w with closes := w.closes ++ [sshConn], session := .closed sshConn })

/-- Whether a host-key callback accepts the key a host presents, given the
entries (host, key) of each known-hosts file: `ssh.InsecureIgnoreHostKey()`
accepts every key, the known-hosts policy of the specification the listed
ones. -/
def HostKeyCallback.accepts (entries : String → List (String × PublicKey)) :
    HostKeyCallback → String → PublicKey → Bool
  | .InsecureIgnoreHostKey, _, _ => true
  | .KnownHosts files, host, key => files.any fun f => (entries f).contains (host, key)

/-! ## `connectToSSH` and `cleanup` -/

/-- The configuration `connectToSSH` builds (lines 86-90). -/
def sshConf (config : SSHConfig) (signer : Signer) : ClientConfig :=
  { User := config.SSHUsername,
    Auth := [AuthMethod.PublicKeys [signer]],
    HostKeyCallback := HostKeyCallback.InsecureIgnoreHostKey }

/-- The method `connectToSSH` (lines 81-94).  The first component is `none` when
the call does not return because the process was terminated inside it, and the
returned pair `(sshConn, err)` otherwise. -/
def connectToSSH (env : Env) (config : SSHConfig) (w : World) :
    Option (Except String Client) × World :=
  match env.ParsePrivateKey config.PrivateKey with
  | .error err => (none, log.Fatalf ("Unable to parse private key: " ++ err) w)
  | .ok signer =>
    let hostWithPort := config.SSHHost ++ ":" ++ config.SSHPort
    let r := ssh.Dial env "tcp" hostWithPort (sshConf config signer) w
    (some r.1, r.2)

/-- The function `cleanup` (lines 73-79). -/
def cleanup (w : World) : World :=
  log.Infoln "Exiting..."
    (log.Infoln "All clean up done without any errors."
      (log.Infoln "Terminating EC2 Instance."
        (log.Infoln "Disconnecting SSH Connection."
          (log.Infoln "Stopping SocksV5 Server" w))))

/-! ## `StartSocksV5Server` -/

/-- Where the calling flow stands in `StartSocksV5Server` (lines 31-41, 65-70);
`sshConn` is the session `connectToSSH` returned. -/
inductive MainPc where
  /-- before line 31 -/
  | entry
  /-- at line 41; the deferred call of lines 35-40 is registered -/
  | connected (sshConn : Client)
  /-- at the `go` statement of line 42 -/
  | spawn (sshConn : Client)
  /-- at line 65 -/
  | started (sshConn : Client)
  /-- at line 66 -/
  | press (sshConn : Client)
  /-- at lines 67-68 -/
  | notify (sshConn : Client)
  /-- blocked in the receive of line 69 -/
  | wait (sshConn : Client)
  /-- at the `return` of line 70, the deferred call still to run -/
  | returning (sshConn : Client)
  /-- back in the caller -/
  | returned
  /-- stopped by `log.Fatalf` -/
  | halted
deriving DecidableEq, Repr

/-- Where the SOCKS5 goroutine (lines 42-64) stands. -/
inductive SocksPc where
  /-- not started yet -/
  | idle
  /-- at lines 43-48 -/
  | create (sshConn : Client)
  /-- at lines 50-51, `socks5.New` having failed -/
  | printErr (err : String)
  /-- at lines 53-54, about to call `ListenAndServe` -/
  | listen
  /-- inside `ListenAndServe`, the listener bound -/
  | serving
  /-- at line 55, `ListenAndServe` having returned an error -/
  | fatal (err : String)
  /-- at lines 57-58 -/
  | notify
  /-- at the `go` statement of line 59 -/
  | spawn
  /-- the goroutine has ended -/
  | done
  /-- stopped by `log.Fatalf` -/
  | halted
deriving DecidableEq, Repr

/-- Where the signal-handler goroutine (lines 59-63) stands. -/
inductive HandlerPc where
  /-- not started yet -/
  | idle
  /-- blocked in the receive of line 60 -/
  | wait
  /-- at line 61 -/
  | cleanup
  /-- at line 62 -/
  | exit
  /-- stopped by `os.Exit` -/
  | halted
deriving DecidableEq, Repr

/-- The state of a run of `StartSocksV5Server`: the world, the three flows and
the goroutine's variable `serverSocks`. -/
structure State where
  world : World
  main : MainPc
  socks : SocksPc
  handler : HandlerPc
  serverSocks : Option Server

/-- The state in which `StartSocksV5Server` is called. -/
def State.start : State :=
  { world := World.start, main := .entry, socks := .idle, handler := .idle,
    serverSocks := none }

/-- What happens next in a run: one of the three flows executes its next
statement, `ListenAndServe` returns (with an error or without), or the operating
system sends a signal to the process. -/
inductive Action where
  | main
  | socks
  | handler
  | serveReturn (err : Option String)
  | signal (sig : Signal)
deriving DecidableEq, Repr

/-- The closure of lines 44-46. -/
def socksDial (env : Env) (sshConn : Client) : DialFunc :=
  fun _ctx network addr => Client.Dial env sshConn network addr

/-- The configuration of lines 43-47. -/
def socksConf (env : Env) (sshConn : Client) : Socks5Config :=
  { Dial := some (socksDial env sshConn) }

/-- The deferred call of lines 35-40. -/
def deferredClose (env : Env) (sshConn : Client) (w : World) : World :=
  match Client.Close env sshConn w with
  | (some err, w1) =>
    log.Warnf ("Error occurred when trying to close the SSH Connection. Error: " ++ err ++ "\n") w1
  | (none, w1) => w1

/-- One statement of the calling flow. -/
def mainStep (env : Env) (config : SSHConfig) (s : State) : State :=
  match s.main with
  | .entry =>
    match connectToSSH env config s.world with
    | (none, w) => { s with world := w, main := .halted }
    | (some (.error err), w) =>
      { s with world := log.Fatalf ("SSH Connection failed with error: " ++ err) w,
               main := .halted }
    | (some (.ok sshConn), w) => { s with world := w, main := .connected sshConn }
  | .connected c =>
    { s with world := log.Infoln "Connected to ssh server" s.world, main := .spawn c }
  | .spawn c =>
    { s with socks := .create c, main := .started c }
  | .started c =>
    { s with world := log.Infoln "Started SocksV5 server." s.world, main := .press c }
  | .press c =>
    { s with world := log.Infoln "Press CTRL+C to stop SocksV5 server and exit!" s.world,
             main := .notify c }
  | .notify c =>
    { s with world := signal.Notify .ch [.SIGINT, .SIGTERM] s.world, main := .wait c }
  | .wait _ => s
  | .returning c => { s with world := deferredClose env c s.world, main := .returned }
  | .returned => s
  | .halted => s

/-- One statement of the SOCKS5 goroutine. -/
def socksStep (env : Env) (config : SSHConfig) (s : State) : State :=
  match s.socks with
  | .idle => s
  | .create c =>
    let conf := socksConf env c
    match env.socks5New conf with
    | some err => { s with socks := .printErr err }
    | none => { s with serverSocks := some { config := conf }, socks := .listen }
  | .printErr err => { s with world := fmt.Println err s.world, socks := .done }
  | .listen =>
    let socksV5Address := config.SocksV5IP ++ ":" ++ config.SocksV5Port
    match env.netListen "tcp" socksV5Address with
    | some err => { s with socks := .fatal err }
    | none =>
      { s with world := { s.world with listener := .listening "tcp" socksV5Address },
               socks := .serving }
  | .serving => s
  | .fatal err =>
    { s with world := log.Fatalf ("Failed to create socks5 server " ++ err) s.world,
             socks := .halted }
  | .notify =>
    { s with world := signal.Notify .exitCh [.SIGINT, .SIGTERM] s.world, socks := .spawn }
  | .spawn =>
    { s with handler := .wait, socks := .done }
  | .done => s
  | .halted => s

/-- One statement of the signal-handler goroutine. -/
def handlerStep (s : State) : State :=
  match s.handler with
  | .idle => s
  | .wait => s
  | .cleanup => { s with world := cleanup s.world, handler := .exit }
  | .exit => { s with world := os.Exit 0 s.world, handler := .halted }
  | .halted => s

/-- `ListenAndServe` returns while the server is serving: with an error, which
the goroutine finds at line 54, or without. -/
def serveReturnStep (err : Option String) (s : State) : State :=
  match s.socks with
  | .serving =>
    match err with
    | some e => { s with socks := .fatal e }
    | none => { s with socks := .notify }
  | _ => s

/-- Whether channel `c` is registered for signal `sig`. -/
def registered (w : World) (c : Chan) (sig : Signal) : Bool :=
  w.notify.any fun r => r.1 == c && r.2.contains sig

/-- The operating system sends `sig`.  With no channel registered for it the Go
runtime ends the process.  Otherwise the runtime offers it to every registered
channel without blocking: both channels are unbuffered, so a flow gets it only
when it is blocked in the receive. -/
def signalStep (sig : Signal) (s : State) : State :=
  if registered s.world .ch sig || registered s.world .exitCh sig then
    let s1 : State :=
      match s.main with
      | .wait c => if registered s.world .ch sig then { s with main := .returning c } else s
      | _ => s
    match s1.handler with
    | .wait => if registered s.world .exitCh sig then { s1 with handler := .cleanup } else s1
    | _ => s1
  else
    { s with world := { s.world with status := .killed sig } }

/-- One action of a run; nothing happens once the process has ended. -/
def step (env : Env) (config : SSHConfig) (a : Action) (s : State) : State :=
  match s.world.status with
  | .running =>
    match a with
    | .main => mainStep env config s
    | .socks => socksStep env config s
    | .handler => handlerStep s
    | .serveReturn err => serveReturnStep err s
    | .signal sig => signalStep sig s
  | _ => s

/-- The state a run reaches from `s` by the actions `acts`, in order. -/
def exec (env : Env) (config : SSHConfig) (acts : List Action) (s : State) : State :=
  acts.foldl (fun st a => step env config a st) s

/-- The state a run of `StartSocksV5Server` reaches by the actions `acts`. -/
def StartSocksV5Server (env : Env) (config : SSHConfig) (acts : List Action) : State :=
  exec env config acts State.start

/-! ## Invariants of the runs of `StartSocksV5Server` -/

/-- The session a program counter of the calling flow holds in `sshConn`, from
line 41 up to the `return`. -/
def MainPc.client : MainPc → Option Client
  | .connected c => some c
  | .spawn c => some c
  | .started c => some c
  | .press c => some c
  | .notify c => some c
  | .wait c => some c
  | .returning c => some c
  | _ => none

/-- What holds in every state of every run. -/
structure Inv (env : Env) (s : State) : Prop where
  /-- before `connectToSSH` nothing has happened, except that the process may
  have been killed -/
  atEntry : s.main = .entry → { s.world with status := .running } = World.start
  /-- before the `go` statement the goroutine does not exist -/
  noSocks : s.main = .entry ∨ s.main = .halted ∨ (∃ c, s.main = .connected c) ∨
      (∃ c, s.main = .spawn c) →
    s.socks = .idle ∧ s.serverSocks = none ∧ s.world.listener = .unbound ∧
      s.world.notify = []
  /-- a flow that never connected leaves no session -/
  noSession : s.main = .entry ∨ s.main = .halted →
    s.world.session = .absent ∧ s.world.closes = []
  /-- until the deferred call runs the session is open and was never closed -/
  live : ∀ c, s.main.client = some c →
    s.world.session = .established c ∧ s.world.closes = []
  /-- after the return the session has been closed, once -/
  closedOnce : s.main = .returned →
    ∃ c, s.world.session = .closed c ∧ s.world.closes = [c]
  /-- the goroutine captured the session of the process -/
  captured : ∀ c, s.socks = .create c →
    s.world.session = .established c ∨ s.world.session = .closed c
  /-- the server was created from the configuration of lines 43-47 -/
  server : ∀ srv, s.serverSocks = some srv →
    ∃ c, (s.world.session = .established c ∨ s.world.session = .closed c) ∧
      srv.config.Dial = some (socksDial env c)
  /-- nothing closes the listener -/
  listenerOpen : s.world.listener ≠ .closed
  /-- `exitCh` is registered only after `ListenAndServe` has returned -/
  exitChLate : ∀ sig, registered s.world .exitCh sig = true →
    s.socks = .spawn ∨ s.socks = .done
  /-- the handler goroutine exists only once the SOCKS5 goroutine has ended -/
  handlerLate : s.handler ≠ .idle → s.socks = .done
  /-- the calling flow waits with `ch` registered for both signals -/
  chEarly : (∃ c, s.main = .wait c) → registered s.world .ch .SIGINT = true ∧
    registered s.world .ch .SIGTERM = true

/-! ## A concrete environment and concrete configurations -/

/-- An environment in which the empty key does not parse, the SSH server
`bastion:22` accepts the connection, and port 1080 of the loopback address is
free while every other local endpoint is taken. -/
def demoEnv : Env :=
  { ParsePrivateKey := fun b =>
      if b = [] then .error "ssh: no key found" else .ok { id := b.length },
    sshDial := fun _ addr _ =>
      if addr = "bastion:22" then .ok 7 else .error "dial tcp: connection refused",
    clientDial := fun _ _ _ => .ok 1,
    clientClose := fun _ => some "use of closed network connection",
    socks5New := fun _ => none,
    netListen := fun _ addr =>
      if addr = "127.0.0.1:1080" then none else some "bind: address already in use" }

/-- A configuration with every field set. -/
def demoConfig : SSHConfig :=
  { PrivateKey := [45, 45, 45, 45, 45],
    KnownHostsFilepath := "/home/user/.ssh/known_hosts",
    SSHHost := "bastion",
    SSHPort := "22",
    SSHUsername := "ec2-user",
    SocksV5IP := "127.0.0.1",
    SocksV5Port := "1080" }

/-- The same configuration with a key that does not parse. -/
def badKeyConfig : SSHConfig :=
  { demoConfig with PrivateKey := [] }

/-- The same configuration with no SSH port given. -/
def noPortConfig : SSHConfig :=
  { demoConfig with SSHPort := "" }

/-- The same configuration with a SOCKS5 port that is in use. -/
def busyPortConfig : SSHConfig :=
  { demoConfig with SocksV5Port := "80" }

/-- A run up to the wait for a signal: the calling flow connects, logs and
starts the goroutine; the goroutine creates the server and calls
`ListenAndServe`; the calling flow logs twice and registers `ch`. -/
def runToWait : List Action :=
  [.main, .main, .main, .socks, .socks, .main, .main, .main]

/-- The same run followed by SIGINT. -/
def runToSignal : List Action :=
  runToWait ++ [.signal .SIGINT]

/-- The same run followed by the return of the calling flow. -/
def runToReturn : List Action :=
  runToSignal ++ [.main]

/-- A run in which the calling flow receives SIGINT while the goroutine, for
which `ListenAndServe` has just returned an error, is about to call
`log.Fatalf`; the goroutine runs first, then the calling flow is scheduled. -/
def runToFatalRace : List Action :=
  runToWait ++
    [.serveReturn (some "accept tcp: use of closed network connection"),
     .signal .SIGINT, .socks, .main]

/-- A run in which the goroutine finds that `ListenAndServe` failed. -/
def runToListenFailure : List Action :=
  [.main, .main, .main, .main, .main, .main, .socks, .socks]

/-! ## Lemmas on runs -/

theorem registered_Notify (c d : Chan) (sigs : List Signal) (sig : Signal) (w : World) :
    registered (signal.Notify c sigs w) d sig
      = (registered w d sig || (c == d && sigs.contains sig)) := by
  simp [registered, signal.Notify, List.any_append]

theorem inv_start (env : Env) : Inv env State.start := by
  constructor <;> simp [State.start, World.start, MainPc.client, registered]

set_option maxHeartbeats 4000000 in
theorem inv_mainStep (env : Env) (config : SSHConfig) (s : State)
    (hrun : s.world.status = .running) (h : Inv env s) :
    Inv env (mainStep env config s) := by
  obtain ⟨w, m, k, hd, srv⟩ := s
  obtain ⟨h1, h2, h3, h4, h5, h6, h7, h8, h9, h10, h11⟩ := h
  cases m <;> simp [MainPc.client, registered] at h1 h2 h3 h4 h5 h6 h7 h8 h9 h10 h11 hrun
  case entry =>
    obtain ⟨rfl, rfl, hl, hn⟩ := h2
    simp only [mainStep, connectToSSH, ssh.Dial]
    cases hp : env.ParsePrivateKey config.PrivateKey with
    | error e =>
      constructor <;> simp [MainPc.client, log.Fatalf, registered] <;> simp_all
    | ok signer =>
      cases hdial : env.sshDial "tcp" (config.SSHHost ++ ":" ++ config.SSHPort)
          (sshConf config signer) with
      | error e =>
        constructor <;> simp [MainPc.client, log.Fatalf, registered] <;> simp_all
      | ok c =>
        constructor <;> simp [MainPc.client, log.Fatalf, registered] <;> simp_all
  case returning c =>
    simp only [mainStep, deferredClose, Client.Close]
    cases hc : env.clientClose c <;>
      (constructor <;> simp [MainPc.client, log.Warnf, registered] <;>
        first | assumption | simp_all)
  all_goals
    constructor <;>
      simp [mainStep, MainPc.client, log.Infoln, registered, signal.Notify] <;>
      first | assumption | simp_all

set_option maxHeartbeats 4000000 in
theorem inv_socksStep (env : Env) (config : SSHConfig) (s : State) (h : Inv env s) :
    Inv env (socksStep env config s) := by
  obtain ⟨w, m, k, hd, srv⟩ := s
  obtain ⟨h1, h2, h3, h4, h5, h6, h7, h8, h9, h10, h11⟩ := h
  cases k <;> simp [registered] at h1 h2 h3 h4 h5 h6 h7 h8 h9 h10 h11
  case create c =>
    simp only [socksStep]
    cases hn : env.socks5New (socksConf env c) <;>
      (constructor <;> simp [registered, socksConf] <;>
        first | assumption | exact ⟨c, h6, rfl⟩)
  case listen =>
    simp only [socksStep]
    cases hn : env.netListen "tcp" (config.SocksV5IP ++ ":" ++ config.SocksV5Port) <;>
      (constructor <;> simp [registered] <;> first | assumption | simp_all)
  all_goals
    constructor <;>
      simp [socksStep, registered, signal.Notify, fmt.Println, log.Fatalf] <;>
      first | assumption | simp_all

set_option maxHeartbeats 4000000 in
theorem inv_handlerStep (env : Env) (s : State) (h : Inv env s) :
    Inv env (handlerStep s) := by
  obtain ⟨w, m, k, hd, srv⟩ := s
  obtain ⟨h1, h2, h3, h4, h5, h6, h7, h8, h9, h10, h11⟩ := h
  cases hd <;> simp [registered] at h1 h2 h3 h4 h5 h6 h7 h8 h9 h10 h11 <;>
    constructor <;>
      simp [handlerStep, registered, cleanup, log.Infoln, os.Exit] <;>
      first | assumption | simp_all

set_option maxHeartbeats 4000000 in
theorem inv_serveReturnStep (env : Env) (err : Option String) (s : State) (h : Inv env s) :
    Inv env (serveReturnStep err s) := by
  obtain ⟨w, m, k, hd, srv⟩ := s
  obtain ⟨h1, h2, h3, h4, h5, h6, h7, h8, h9, h10, h11⟩ := h
  cases k <;> cases err <;> simp [registered] at h1 h2 h3 h4 h5 h6 h7 h8 h9 h10 h11 <;>
    constructor <;>
      simp [serveReturnStep, registered] <;>
      assumption

set_option maxHeartbeats 4000000 in
theorem inv_signalStep (env : Env) (sig : Signal) (s : State) (h : Inv env s) :
    Inv env (signalStep sig s) := by
  obtain ⟨w, m, k, hd, srv⟩ := s
  obtain ⟨h1, h2, h3, h4, h5, h6, h7, h8, h9, h10, h11⟩ := h
  unfold signalStep
  split
  · have hm : ∀ t : State, Inv env t →
        Inv env (match t.handler with
          | .wait => if registered w .exitCh sig then { t with handler := .cleanup } else t
          | _ => t) := by
      intro t ht
      split
      · split
        · obtain ⟨w2, m2, k2, hd2, srv2⟩ := t
          obtain ⟨g1, g2, g3, g4, g5, g6, g7, g8, g9, g10, g11⟩ := ht
          constructor <;> simp at * <;> first | assumption | simp_all
        · exact ht
      · exact ht
    apply hm
    cases m <;> simp only [] <;> try exact ⟨h1, h2, h3, h4, h5, h6, h7, h8, h9, h10, h11⟩
    split
    · simp [MainPc.client] at h1 h2 h3 h4 h5 h6 h7 h8 h9 h10 h11
      constructor <;> simp [MainPc.client] <;> assumption
    · exact ⟨h1, h2, h3, h4, h5, h6, h7, h8, h9, h10, h11⟩
  · simp [registered] at h1 h2 h3 h4 h5 h6 h7 h8 h9 h10 h11
    constructor <;> simp [registered] <;> assumption

theorem inv_step (env : Env) (config : SSHConfig) (a : Action) (s : State) (h : Inv env s) :
    Inv env (step env config a s) := by
  unfold step
  split
  · next hrun =>
    cases a with
    | main => exact inv_mainStep env config s hrun h
    | socks => exact inv_socksStep env config s h
    | handler => exact inv_handlerStep env s h
    | serveReturn err => exact inv_serveReturnStep env err s h
    | signal sig => exact inv_signalStep env sig s h
  · exact h

theorem inv_exec (env : Env) (config : SSHConfig) (acts : List Action) :
    ∀ s : State, Inv env s → Inv env (exec env config acts s) := by
  induction acts with
  | nil => intro s h; exact h
  | cons a rest ih => intro s h; exact ih _ (inv_step env config a s h)

/-- Every state of every run of `StartSocksV5Server` satisfies the invariant. -/
theorem inv_run (env : Env) (config : SSHConfig) (acts : List Action) :
    Inv env (StartSocksV5Server env config acts) :=
  inv_exec env config acts State.start (inv_start env)

theorem connectToSSH_parse_error (env : Env) (config : SSHConfig) (w : World) (err : String)
    (hp : env.ParsePrivateKey config.PrivateKey = .error err) :
    connectToSSH env config w
      = (none, log.Fatalf ("Unable to parse private key: " ++ err) w) := by
  simp [connectToSSH, hp]

theorem connectToSSH_parse_ok (env : Env) (config : SSHConfig) (w : World) (signer : Signer)
    (hp : env.ParsePrivateKey config.PrivateKey = .ok signer) :
    connectToSSH env config w
      = (some (ssh.Dial env "tcp" (config.SSHHost ++ ":" ++ config.SSHPort)
                (sshConf config signer) w).1,
          (ssh.Dial env "tcp" (config.SSHHost ++ ":" ++ config.SSHPort)
                (sshConf config signer) w).2) := by
  simp [connectToSSH, hp]

theorem ssh_Dial_sshDials (env : Env) (network addr : String) (conf : ClientConfig)
    (w : World) :
    (ssh.Dial env network addr conf w).2.sshDials = w.sshDials ++ [(network, addr, conf)] := by
  unfold ssh.Dial
  cases env.sshDial network addr conf <;> rfl

/-! ## The claims -/

/-- C1, as stated, fails: with `KnownHostsFilepath` set and a known-hosts source
without a single entry, the configuration `connectToSSH` hands to `ssh.Dial`
accepts the key `rogue-key` for `bastion`, which a check against the
known-hosts entries rejects. -/
theorem connectToSSH_host_key_unverified :
    ∃ d ∈ (connectToSSH demoEnv demoConfig World.start).2.sshDials,
      d.2.2.HostKeyCallback.accepts (fun _ => []) "bastion" "rogue-key" = true ∧
      (HostKeyCallback.KnownHosts [demoConfig.KnownHostsFilepath]).accepts
        (fun _ => []) "bastion" "rogue-key" = false := by
  decide

/-- C1, amended: every configuration `connectToSSH` hands to `ssh.Dial` carries
`ssh.InsecureIgnoreHostKey()`, which accepts every host key whatever the
known-hosts entries are, and `KnownHostsFilepath` has no influence on what
`connectToSSH` does. -/
theorem connectToSSH_accepts_any_host_key (env : Env) (config : SSHConfig) (w : World)
    (d : String × String × ClientConfig)
    (hd : d ∈ (connectToSSH env config w).2.sshDials) (hnew : d ∉ w.sshDials) :
    d.2.2.HostKeyCallback = HostKeyCallback.InsecureIgnoreHostKey ∧
    (∀ entries host key, d.2.2.HostKeyCallback.accepts entries host key = true) ∧
    (∀ path, connectToSSH env { config with KnownHostsFilepath := path } w
      = connectToSSH env config w) := by
  have hcb : d.2.2.HostKeyCallback = HostKeyCallback.InsecureIgnoreHostKey := by
    cases hp : env.ParsePrivateKey config.PrivateKey with
    | error e =>
      rw [connectToSSH_parse_error env config w e hp] at hd
      exact absurd hd hnew
    | ok signer =>
      rw [connectToSSH_parse_ok env config w signer hp, ssh_Dial_sshDials] at hd
      rcases List.mem_append.mp hd with h | h
      · exact absurd h hnew
      · rw [List.mem_singleton.mp h]
        rfl
  refine ⟨hcb, ?_, ?_⟩
  · intro entries host key
    rw [hcb]
    rfl
  · intro path
    rfl

/-- C1, amended, at a concrete input. -/
theorem connectToSSH_accepts_any_host_key_witness :
    ("tcp", "bastion:22", sshConf demoConfig { id := 5 })
        ∈ (connectToSSH demoEnv demoConfig World.start).2.sshDials ∧
    ("tcp", "bastion:22", sshConf demoConfig { id := 5 }) ∉ World.start.sshDials ∧
    (sshConf demoConfig { id := 5 }).HostKeyCallback = HostKeyCallback.InsecureIgnoreHostKey :=
  ⟨by decide, by decide,
    (connectToSSH_accepts_any_host_key demoEnv demoConfig World.start
      ("tcp", "bastion:22", sshConf demoConfig { id := 5 }) (by decide) (by decide)).1⟩

/-- C2: in every run, the server of the SOCKS5 goroutine was created from a
configuration whose `Dial` is set, and calling that `Dial` with any context,
network and address is calling `Dial` of the SSH session of the process with
that network and that address: same result, same effect, and no connection
opened by the local host. -/
theorem socks_Dial_is_session_Dial (env : Env) (config : SSHConfig) (acts : List Action)
    (srv : Server)
    (hsrv : (StartSocksV5Server env config acts).serverSocks = some srv) :
    ∃ c dial,
      ((StartSocksV5Server env config acts).world.session = .established c ∨
        (StartSocksV5Server env config acts).world.session = .closed c) ∧
      srv.config.Dial = some dial ∧
      ∀ (ctx : Ctx) (network addr : String) (w : World),
        dial ctx network addr w = Client.Dial env c network addr w ∧
        (dial ctx network addr w).1 = env.clientDial c network addr ∧
        (dial ctx network addr w).2.channels = w.channels ++ [(c, network, addr)] ∧
        (dial ctx network addr w).2.sshDials = w.sshDials := by
  obtain ⟨c, hc, hdial⟩ := (inv_run env config acts).server srv hsrv
  exact ⟨c, socksDial env c, hc, hdial, fun _ _ _ _ => ⟨rfl, rfl, rfl, rfl⟩⟩

/-- C2 at a concrete run. -/
theorem socks_Dial_is_session_Dial_witness :
    (StartSocksV5Server demoEnv demoConfig runToWait).serverSocks
        = some { config := socksConf demoEnv 7 } ∧
    ∃ c dial,
      ((StartSocksV5Server demoEnv demoConfig runToWait).world.session = .established c ∨
        (StartSocksV5Server demoEnv demoConfig runToWait).world.session = .closed c) ∧
      (socksConf demoEnv 7).Dial = some dial ∧
      ∀ (ctx : Ctx) (network addr : String) (w : World),
        dial ctx network addr w = Client.Dial demoEnv c network addr w ∧
        (dial ctx network addr w).1 = demoEnv.clientDial c network addr ∧
        (dial ctx network addr w).2.channels = w.channels ++ [(c, network, addr)] ∧
        (dial ctx network addr w).2.sshDials = w.sshDials :=
  ⟨rfl, socks_Dial_is_session_Dial demoEnv demoConfig runToWait
    { config := socksConf demoEnv 7 } rfl⟩

theorem step_of_not_running (env : Env) (config : SSHConfig) (a : Action) (s : State)
    (h : s.world.status ≠ .running) : step env config a s = s := by
  unfold step
  split
  · next hrun => exact absurd hrun h
  · rfl

theorem exec_of_not_running (env : Env) (config : SSHConfig) (acts : List Action) :
    ∀ s : State, s.world.status ≠ .running → exec env config acts s = s := by
  induction acts with
  | nil => intro s _; rfl
  | cons a rest ih =>
    intro s h
    show exec env config rest (step env config a s) = s
    rw [step_of_not_running env config a s h]
    exact ih s h

theorem exec_append (env : Env) (config : SSHConfig) (xs ys : List Action) (s : State) :
    exec env config (xs ++ ys) s = exec env config ys (exec env config xs s) := by
  simp [exec, List.foldl_append]

theorem world_eq_start (w : World) (h : { w with status := .running } = World.start)
    (hrun : w.status = .running) : w = World.start := by
  rw [← h]
  cases w
  simp at hrun
  simp [hrun]

/-- When `connectToSSH` returns an error, the calling flow either has not run
yet or was stopped by `log.Fatalf` with status 1. -/
theorem connect_failure_step (env : Env) (config : SSHConfig) (err : String)
    (hfail : (connectToSSH env config World.start).1 = some (.error err))
    (a : Action) (s : State) (hinv : Inv env s)
    (h : s.main = .entry ∨ (s.main = .halted ∧ s.world.status = .exited 1)) :
    (step env config a s).main = .entry ∨
      ((step env config a s).main = .halted ∧
        (step env config a s).world.status = .exited 1) := by
  by_cases hrun : s.world.status = .running
  · rcases h with h | ⟨_, h⟩
    · have hw : s.world = World.start := world_eq_start s.world (hinv.atEntry h) hrun
      obtain ⟨hk, _, _, _⟩ := hinv.noSocks (Or.inl h)
      have hh : s.handler = .idle := by
        by_contra hne
        have := hinv.handlerLate hne
        rw [hk] at this
        cases this
      cases hres : connectToSSH env config World.start with
      | mk r w2 =>
        rw [hres] at hfail
        simp only at hfail
        subst hfail
        have hst : World.start.status = .running := rfl
        cases a with
        | main =>
          right
          simp [step, hst, mainStep, h, hw, hres, log.Fatalf]
        | socks =>
          left
          simp [step, hrun, socksStep, hk, h]
        | handler =>
          left
          simp [step, hrun, handlerStep, hh, h]
        | serveReturn e =>
          left
          simp [step, hrun, serveReturnStep, hk, h]
        | signal sig =>
          left
          simp [step, hrun, signalStep, registered, h]
          simp [hw, World.start, h]
    · rw [h] at hrun
      cases hrun
  · rw [step_of_not_running env config a s hrun]
    exact h

theorem connect_failure_exec (env : Env) (config : SSHConfig) (err : String)
    (hfail : (connectToSSH env config World.start).1 = some (.error err))
    (acts : List Action) :
    ∀ s : State, Inv env s →
      (s.main = .entry ∨ (s.main = .halted ∧ s.world.status = .exited 1)) →
      ((exec env config acts s).main = .entry ∨
        ((exec env config acts s).main = .halted ∧
          (exec env config acts s).world.status = .exited 1)) := by
  induction acts with
  | nil => intro s _ h; exact h
  | cons a rest ih =>
    intro s hinv h
    exact ih _ (inv_step env config a s hinv)
      (connect_failure_step env config err hfail a s hinv h)

/-- C3: when `connectToSSH` returns an error, the first statement of the calling
flow ends the process with status 1, and in every run no SOCKS5 server is
created, `ListenAndServe` is never called (the goroutine is never started) and
the listener is never bound; once the calling flow has run, the process has
exited with status 1. -/
theorem connect_failure_is_fatal (env : Env) (config : SSHConfig) (err : String)
    (hfail : (connectToSSH env config World.start).1 = some (.error err))
    (acts : List Action) :
    (StartSocksV5Server env config [.main]).world.status = .exited 1 ∧
    (StartSocksV5Server env config acts).socks = .idle ∧
    (StartSocksV5Server env config acts).serverSocks.isNone = true ∧
    (StartSocksV5Server env config acts).world.listener = .unbound ∧
    ((StartSocksV5Server env config acts).main ≠ .entry →
      (StartSocksV5Server env config acts).world.status = .exited 1) := by
  have hJ := connect_failure_exec env config err hfail acts State.start (inv_start env)
    (Or.inl rfl)
  have hinv := inv_run env config acts
  have hJ1 := connect_failure_exec env config err hfail [.main] State.start (inv_start env)
    (Or.inl rfl)
  have hpre : (StartSocksV5Server env config acts).main = .entry ∨
      (StartSocksV5Server env config acts).main = .halted := by
    rcases hJ with h | ⟨h, _⟩
    · exact Or.inl h
    · exact Or.inr h
  have hns := hinv.noSocks (by
    rcases hpre with h | h
    · exact Or.inl h
    · exact Or.inr (Or.inl h))
  refine ⟨?_, hns.1, ?_, hns.2.2.1, ?_⟩
  · rcases hJ1 with h | ⟨_, h⟩
    · exfalso
      cases hres : connectToSSH env config World.start with
      | mk r w2 =>
        rw [hres] at hfail
        simp only at hfail
        subst hfail
        have hs : (State.start).world = World.start := rfl
        simp [exec, step, mainStep, State.start, hs, hres] at h
        simp [World.start, hres] at h
    · exact h
  · rw [hns.2.1]
    rfl
  · intro hne
    rcases hJ with h | ⟨_, h⟩
    · exact absurd h hne
    · exact h

/-- C3 at a concrete input: no SSH port, so that the dial is refused. -/
theorem connect_failure_is_fatal_witness :
    (connectToSSH demoEnv noPortConfig World.start).1
        = some (.error "dial tcp: connection refused") ∧
    (StartSocksV5Server demoEnv noPortConfig [.main]).world.status = .exited 1 ∧
    (StartSocksV5Server demoEnv noPortConfig runToWait).socks = .idle ∧
    (StartSocksV5Server demoEnv noPortConfig runToWait).serverSocks.isNone = true ∧
    (StartSocksV5Server demoEnv noPortConfig runToWait).world.listener = .unbound ∧
    ((StartSocksV5Server demoEnv noPortConfig runToWait).main ≠ .entry →
      (StartSocksV5Server demoEnv noPortConfig runToWait).world.status = .exited 1) :=
  ⟨rfl, connect_failure_is_fatal demoEnv noPortConfig "dial tcp: connection refused" rfl
    runToWait⟩

/-- C4, as stated, fails: with a key that does not parse, `connectToSSH` hands
no error to its caller; it does not return at all, the process having exited
with status 1 inside it. -/
theorem connectToSSH_bad_key_returns_nothing :
    (¬ ∃ err, (connectToSSH demoEnv badKeyConfig World.start).1 = some (.error err)) ∧
    (connectToSSH demoEnv badKeyConfig World.start).1 = none ∧
    (connectToSSH demoEnv badKeyConfig World.start).2.status = .exited 1 := by
  refine ⟨?_, rfl, rfl⟩
  rintro ⟨err, h⟩
  have hnone : (connectToSSH demoEnv badKeyConfig World.start).1 = none := rfl
  rw [hnone] at h
  cases h

/-- C4, amended: when the key does not parse, `connectToSSH` logs
"Unable to parse private key" at FATAL and ends the process with status 1; it
does not return to its caller, yields no session, and never calls `ssh.Dial`, so
no TCP connection to the SSH host is opened.  In `StartSocksV5Server` the
process then ends with that single log line. -/
theorem connectToSSH_bad_key_exits (env : Env) (config : SSHConfig) (w : World)
    (err : String) (hkey : env.ParsePrivateKey config.PrivateKey = .error err) :
    (connectToSSH env config w).1 = none ∧
    (connectToSSH env config w).2.status = .exited 1 ∧
    (connectToSSH env config w).2.logs
      = w.logs ++ [(Level.fatal, "Unable to parse private key: " ++ err)] ∧
    (connectToSSH env config w).2.sshDials = w.sshDials ∧
    (connectToSSH env config w).2.session = w.session ∧
    (StartSocksV5Server env config [.main]).world
      = log.Fatalf ("Unable to parse private key: " ++ err) World.start := by
  rw [connectToSSH_parse_error env config w err hkey]
  refine ⟨rfl, rfl, rfl, rfl, rfl, ?_⟩
  have hst : World.start.status = .running := rfl
  have hs : (State.start).world = World.start := rfl
  have hm : (State.start).main = .entry := rfl
  simp [StartSocksV5Server, exec, step, hs, hst, mainStep, hm,
    connectToSSH_parse_error env config World.start err hkey]

/-- C4, amended, at a concrete input. -/
theorem connectToSSH_bad_key_exits_witness :
    demoEnv.ParsePrivateKey badKeyConfig.PrivateKey = .error "ssh: no key found" ∧
    (connectToSSH demoEnv badKeyConfig World.start).1 = none ∧
    (connectToSSH demoEnv badKeyConfig World.start).2.status = .exited 1 ∧
    (connectToSSH demoEnv badKeyConfig World.start).2.sshDials = [] :=
  ⟨rfl,
    (connectToSSH_bad_key_exits demoEnv badKeyConfig World.start "ssh: no key found" rfl).1,
    (connectToSSH_bad_key_exits demoEnv badKeyConfig World.start "ssh: no key found" rfl).2.1,
    (connectToSSH_bad_key_exits demoEnv badKeyConfig World.start "ssh: no key found"
      rfl).2.2.2.1⟩

/-- C5, as stated, fails: in the run in which the calling flow receives SIGINT
and returns, the SSH session has been closed while the SOCKS5 listener is still
listening; it was not closed first. -/
theorem shutdown_closes_session_with_listener_open :
    (StartSocksV5Server demoEnv demoConfig runToSignal).main = .returning 7 ∧
    (StartSocksV5Server demoEnv demoConfig runToReturn).main = .returned ∧
    (StartSocksV5Server demoEnv demoConfig runToReturn).world.session = .closed 7 ∧
    (StartSocksV5Server demoEnv demoConfig runToReturn).world.listener
      = .listening "tcp" "127.0.0.1:1080" := by
  decide

/-- C5, amended: in no run does `StartSocksV5Server` close the SOCKS5 listener,
and when the calling flow has received a termination signal its return closes
the SSH session and leaves the listener as it was. -/
theorem shutdown_closes_session_only (env : Env) (config : SSHConfig) (acts : List Action) :
    (StartSocksV5Server env config acts).world.listener ≠ .closed ∧
    ∀ c, (StartSocksV5Server env config acts).main = .returning c →
      (StartSocksV5Server env config acts).world.status = .running →
      (step env config .main (StartSocksV5Server env config acts)).world.session
        = .closed c ∧
      (step env config .main (StartSocksV5Server env config acts)).world.listener
        = (StartSocksV5Server env config acts).world.listener := by
  refine ⟨(inv_run env config acts).listenerOpen, ?_⟩
  intro c hm hrun
  generalize StartSocksV5Server env config acts = s at hm hrun
  cases hc : env.clientClose c <;>
    simp [step, hrun, mainStep, hm, deferredClose, Client.Close, hc, log.Warnf]

/-- C5, amended, at a concrete run. -/
theorem shutdown_closes_session_only_witness :
    (StartSocksV5Server demoEnv demoConfig runToSignal).main = .returning 7 ∧
    (StartSocksV5Server demoEnv demoConfig runToSignal).world.status = .running ∧
    (StartSocksV5Server demoEnv demoConfig runToSignal).world.listener ≠ .closed ∧
    (step demoEnv demoConfig .main
        (StartSocksV5Server demoEnv demoConfig runToSignal)).world.session = .closed 7 ∧
    (step demoEnv demoConfig .main
        (StartSocksV5Server demoEnv demoConfig runToSignal)).world.listener
      = (StartSocksV5Server demoEnv demoConfig runToSignal).world.listener :=
  ⟨by decide, by decide,
    (shutdown_closes_session_only demoEnv demoConfig runToSignal).1,
    (shutdown_closes_session_only demoEnv demoConfig runToSignal).2 7
      (by decide) (by decide)⟩

/-- C6, which the code breaks: when `ListenAndServe` has returned an error, the
goroutine's `log.Fatalf` ends the process with status 1 without any call of
`Close`: the session is left as it was, still established whenever the calling
flow has not returned, and nothing runs afterwards. -/
theorem listen_failure_exits_without_close (env : Env) (config : SSHConfig)
    (acts : List Action) (err : String)
    (hfatal : (StartSocksV5Server env config acts).socks = .fatal err)
    (hrun : (StartSocksV5Server env config acts).world.status = .running) :
    (step env config .socks (StartSocksV5Server env config acts)).world.status
      = .exited 1 ∧
    (step env config .socks (StartSocksV5Server env config acts)).world.closes
      = (StartSocksV5Server env config acts).world.closes ∧
    (step env config .socks (StartSocksV5Server env config acts)).world.session
      = (StartSocksV5Server env config acts).world.session ∧
    (∀ c, (StartSocksV5Server env config acts).main.client = some c →
      (step env config .socks (StartSocksV5Server env config acts)).world.session
        = .established c ∧
      (step env config .socks (StartSocksV5Server env config acts)).world.closes = []) ∧
    ∀ more, exec env config more (step env config .socks (StartSocksV5Server env config acts))
      = step env config .socks (StartSocksV5Server env config acts) := by
  have hinv := inv_run env config acts
  generalize StartSocksV5Server env config acts = s at hfatal hrun hinv
  have hstep : step env config .socks s
      = { s with world := log.Fatalf ("Failed to create socks5 server " ++ err) s.world,
                 socks := .halted } := by
    simp [step, hrun, socksStep, hfatal]
  rw [hstep]
  refine ⟨rfl, rfl, rfl, ?_, ?_⟩
  · intro c hc
    exact hinv.live c hc
  · intro more
    apply exec_of_not_running
    simp [log.Fatalf]

/-- C6 at a concrete run: the SOCKS5 port is in use, the session established. -/
theorem listen_failure_exits_without_close_witness :
    (StartSocksV5Server demoEnv busyPortConfig runToListenFailure).socks
      = .fatal "bind: address already in use" ∧
    (StartSocksV5Server demoEnv busyPortConfig runToListenFailure).world.status = .running ∧
    (StartSocksV5Server demoEnv busyPortConfig runToListenFailure).main.client = some 7 ∧
    (step demoEnv busyPortConfig .socks
      (StartSocksV5Server demoEnv busyPortConfig runToListenFailure)).world.status
      = .exited 1 ∧
    (step demoEnv busyPortConfig .socks
      (StartSocksV5Server demoEnv busyPortConfig runToListenFailure)).world.session
      = .established 7 ∧
    (step demoEnv busyPortConfig .socks
      (StartSocksV5Server demoEnv busyPortConfig runToListenFailure)).world.closes = [] :=
  ⟨by decide, by decide, by decide,
    (listen_failure_exits_without_close demoEnv busyPortConfig runToListenFailure
      "bind: address already in use" (by decide) (by decide)).1,
    ((listen_failure_exits_without_close demoEnv busyPortConfig runToListenFailure
      "bind: address already in use" (by decide) (by decide)).2.2.2.1 7 (by decide)).1,
    ((listen_failure_exits_without_close demoEnv busyPortConfig runToListenFailure
      "bind: address already in use" (by decide) (by decide)).2.2.2.1 7 (by decide)).2⟩

/-- C7, as stated, fails: with no SSH port given, `connectToSSH` dials
`bastion:` and not `bastion:22`. -/
theorem connectToSSH_no_default_port :
    noPortConfig.SSHPort = "" ∧
    (connectToSSH demoEnv noPortConfig World.start).2.sshDials
      = [("tcp", "bastion:", sshConf noPortConfig { id := 5 })] ∧
    (connectToSSH demoEnv noPortConfig World.start).2.sshDials
      ≠ [("tcp", "bastion:22", sshConf noPortConfig { id := 5 })] := by
  decide

/-- C7, amended: for every host `h` and port string `p`, empty or not,
`connectToSSH` makes one call of `ssh.Dial`, over network `tcp` to the address
`h:p`; with the empty port that address is `h:`. -/
theorem connectToSSH_dials_host_colon_port (env : Env) (config : SSHConfig) (w : World)
    (signer : Signer) (hkey : env.ParsePrivateKey config.PrivateKey = .ok signer) :
    (connectToSSH env config w).2.sshDials
      = w.sshDials ++
        [("tcp", config.SSHHost ++ ":" ++ config.SSHPort, sshConf config signer)] ∧
    (config.SSHPort = "" →
      (connectToSSH env config w).2.sshDials
        = w.sshDials ++ [("tcp", config.SSHHost ++ ":", sshConf config signer)]) := by
  rw [connectToSSH_parse_ok env config w signer hkey, ssh_Dial_sshDials]
  refine ⟨rfl, ?_⟩
  intro hp
  rw [hp, String.append_empty]

/-- C7, amended, at a concrete input. -/
theorem connectToSSH_dials_host_colon_port_witness :
    demoEnv.ParsePrivateKey demoConfig.PrivateKey = .ok { id := 5 } ∧
    (connectToSSH demoEnv demoConfig World.start).2.sshDials
      = World.start.sshDials ++
        [("tcp", demoConfig.SSHHost ++ ":" ++ demoConfig.SSHPort,
          sshConf demoConfig { id := 5 })] :=
  ⟨rfl, (connectToSSH_dials_host_colon_port demoEnv demoConfig World.start { id := 5 }
    rfl).1⟩

/-- C8, which the code breaks: in every run, while the SOCKS5 goroutine is
inside `ListenAndServe` (the server listening and serving), the goroutine has
registered `exitCh` for no signal and its handler goroutine does not exist; the
registration of the calling flow, which waits with `ch` registered for SIGINT
and SIGTERM, is the only one. -/
theorem serving_without_second_registration (env : Env) (config : SSHConfig)
    (acts : List Action)
    (hserving : (StartSocksV5Server env config acts).socks = .serving) :
    (∀ sig, registered (StartSocksV5Server env config acts).world .exitCh sig = false) ∧
    (StartSocksV5Server env config acts).handler = .idle ∧
    (∀ c, (StartSocksV5Server env config acts).main = .wait c →
      registered (StartSocksV5Server env config acts).world .ch .SIGINT = true ∧
      registered (StartSocksV5Server env config acts).world .ch .SIGTERM = true) := by
  have hinv := inv_run env config acts
  refine ⟨?_, ?_, fun c hc => hinv.chEarly ⟨c, hc⟩⟩
  · intro sig
    cases hreg : registered (StartSocksV5Server env config acts).world .exitCh sig with
    | false => rfl
    | true =>
      have := hinv.exitChLate sig hreg
      rw [hserving] at this
      rcases this with h | h <;> cases h
  · by_contra hne
    have := hinv.handlerLate hne
    rw [hserving] at this
    cases this

/-- C8 at a concrete run: the server is listening, the calling flow waits with
its own registration made, and that registration is the only one. -/
theorem serving_without_second_registration_witness :
    (StartSocksV5Server demoEnv demoConfig runToWait).socks = .serving ∧
    (StartSocksV5Server demoEnv demoConfig runToWait).world.listener
      = .listening "tcp" "127.0.0.1:1080" ∧
    (StartSocksV5Server demoEnv demoConfig runToWait).main = .wait 7 ∧
    (StartSocksV5Server demoEnv demoConfig runToWait).world.notify
      = [(.ch, [.SIGINT, .SIGTERM])] ∧
    (∀ sig, registered (StartSocksV5Server demoEnv demoConfig runToWait).world .exitCh sig
      = false) ∧
    (StartSocksV5Server demoEnv demoConfig runToWait).handler = .idle ∧
    registered (StartSocksV5Server demoEnv demoConfig runToWait).world .ch .SIGINT = true :=
  ⟨by decide, by decide, by decide, by decide,
    (serving_without_second_registration demoEnv demoConfig runToWait (by decide)).1,
    (serving_without_second_registration demoEnv demoConfig runToWait (by decide)).2.1,
    ((serving_without_second_registration demoEnv demoConfig runToWait (by decide)).2.2 7
      (by decide)).1⟩

/-- C9: in every world, `cleanup` appends its five INFO lines, in order, to the
log and changes nothing else: the SSH session, the listener, the calls of
`Close`, the signal registrations and the exit status stay as they were. -/
theorem cleanup_only_logs (w : World) :
    cleanup w
      = { w with logs := w.logs ++
            [(Level.info, "Stopping SocksV5 Server"),
             (Level.info, "Disconnecting SSH Connection."),
             (Level.info, "Terminating EC2 Instance."),
             (Level.info, "All clean up done without any errors."),
             (Level.info, "Exiting...")] } ∧
    (cleanup w).session = w.session ∧
    (cleanup w).listener = w.listener ∧
    (cleanup w).closes = w.closes ∧
    (cleanup w).notify = w.notify ∧
    (cleanup w).status = w.status := by
  refine ⟨?_, rfl, rfl, rfl, rfl, rfl⟩
  simp [cleanup, log.Infoln]

theorem returned_step (env : Env) (config : SSHConfig) (a : Action) (s : State)
    (h : s.main = .returned) :
    (step env config a s).main = .returned ∧
      (step env config a s).world.closes = s.world.closes := by
  by_cases hrun : s.world.status = .running
  · obtain ⟨w, m, k, hd, srv⟩ := s
    simp only at h hrun
    subst h
    cases a with
    | main => simp [step, hrun, mainStep]
    | socks =>
      cases k <;> simp [step, hrun, socksStep, fmt.Println, log.Fatalf, signal.Notify]
      · split <;> simp
      · split <;> simp
    | handler => cases hd <;> simp [step, hrun, handlerStep, cleanup, log.Infoln, os.Exit]
    | serveReturn e => cases k <;> cases e <;> simp [step, hrun, serveReturnStep]
    | signal sig =>
      cases hd <;> simp [step, hrun, signalStep] <;> split <;> (try simp) <;>
        (try split) <;> try simp
  · rw [step_of_not_running env config a s hrun]
    exact ⟨h, rfl⟩

theorem returned_exec (env : Env) (config : SSHConfig) (acts : List Action) :
    ∀ s : State, s.main = .returned →
      (exec env config acts s).main = .returned ∧
        (exec env config acts s).world.closes = s.world.closes := by
  induction acts with
  | nil => intro s h; exact ⟨h, rfl⟩
  | cons a rest ih =>
    intro s h
    obtain ⟨h1, h2⟩ := returned_step env config a s h
    obtain ⟨h3, h4⟩ := ih _ h1
    exact ⟨h3, h4.trans h2⟩

/-- C10, as stated, fails: in the run in which `ListenAndServe` returns an error
just before SIGINT arrives, the calling flow has received the signal (it stands
at the `return` with the process alive), but the goroutine reaches `log.Fatalf`
of line 55 first: the process exits with status 1, `Close` is never called, the
session stays established and the flow never gets back to its caller. -/
theorem signal_then_fatal_skips_close :
    (StartSocksV5Server demoEnv demoConfig
        (runToWait ++
          [.serveReturn (some "accept tcp: use of closed network connection"),
           .signal .SIGINT])).main = .returning 7 ∧
    (StartSocksV5Server demoEnv demoConfig
        (runToWait ++
          [.serveReturn (some "accept tcp: use of closed network connection"),
           .signal .SIGINT])).world.status = .running ∧
    (StartSocksV5Server demoEnv demoConfig runToFatalRace).world.status = .exited 1 ∧
    (StartSocksV5Server demoEnv demoConfig runToFatalRace).world.closes = [] ∧
    (StartSocksV5Server demoEnv demoConfig runToFatalRace).world.session
      = .established 7 ∧
    (StartSocksV5Server demoEnv demoConfig runToFatalRace).main = .returning 7 ∧
    (StartSocksV5Server demoEnv demoConfig runToFatalRace).main ≠ .returned := by
  decide

/-- C10, amended: when the calling flow has received SIGINT or SIGTERM (it
stands at the `return`) and the process is still alive when the flow takes the
return, the session has not been closed yet; the return runs the deferred call,
which closes the session, and the flow is back in its caller with the process
still running.  An error of `Close` only adds one WARN line; whatever `Close`
reports, the flow has returned, the exit status is unchanged, and in every
continuation of the run `Close` has been called exactly once. -/
theorem signal_closes_session_once (env : Env) (config : SSHConfig) (acts : List Action)
    (c : Client)
    (hsig : (StartSocksV5Server env config acts).main = .returning c)
    (hrun : (StartSocksV5Server env config acts).world.status = .running) :
    (StartSocksV5Server env config acts).world.closes = [] ∧
    (StartSocksV5Server env config acts).world.session = .established c ∧
    (StartSocksV5Server env config (acts ++ [.main])).main = .returned ∧
    (StartSocksV5Server env config (acts ++ [.main])).world.closes = [c] ∧
    (StartSocksV5Server env config (acts ++ [.main])).world.session = .closed c ∧
    (StartSocksV5Server env config (acts ++ [.main])).world.status = .running ∧
    (StartSocksV5Server env config (acts ++ [.main])).world.logs
      = (StartSocksV5Server env config acts).world.logs ++
        (match env.clientClose c with
          | none => []
          | some err =>
            [(Level.warn,
              "Error occurred when trying to close the SSH Connection. Error: "
                ++ err ++ "\n")]) ∧
    ∀ more, (StartSocksV5Server env config (acts ++ [.main] ++ more)).main = .returned ∧
      (StartSocksV5Server env config (acts ++ [.main] ++ more)).world.closes = [c] := by
  obtain ⟨hsess, hcl⟩ := (inv_run env config acts).live c (by rw [hsig]; rfl)
  have hone : StartSocksV5Server env config (acts ++ [.main])
      = step env config .main (StartSocksV5Server env config acts) := by
    simp [StartSocksV5Server, exec_append, exec]
  have hmore : ∀ more, StartSocksV5Server env config (acts ++ [.main] ++ more)
      = exec env config more (step env config .main (StartSocksV5Server env config acts)) := by
    intro more
    simp [StartSocksV5Server, exec_append, exec]
  simp only [hone, hmore]
  generalize StartSocksV5Server env config acts = s at hsig hrun hsess hcl
  have hstep : step env config .main s
      = { s with world := deferredClose env c s.world, main := .returned } := by
    simp [step, hrun, mainStep, hsig]
  rw [hstep]
  have hclose : (deferredClose env c s.world).closes = [c] := by
    cases hc : env.clientClose c <;> simp [deferredClose, Client.Close, hc, log.Warnf, hcl]
  refine ⟨hcl, hsess, rfl, hclose, ?_, ?_, ?_, ?_⟩
  · cases hc : env.clientClose c <;> simp [deferredClose, Client.Close, hc, log.Warnf]
  · cases hc : env.clientClose c <;> simp [deferredClose, Client.Close, hc, log.Warnf, hrun]
  · cases hc : env.clientClose c <;> simp [deferredClose, Client.Close, hc, log.Warnf]
  · intro more
    obtain ⟨h1, h2⟩ := returned_exec env config more
      { s with world := deferredClose env c s.world, main := .returned } rfl
    exact ⟨h1, h2.trans hclose⟩

/-- C10, amended, at a concrete run, in which `Close` reports an error. -/
theorem signal_closes_session_once_witness :
    (StartSocksV5Server demoEnv demoConfig runToSignal).main = .returning 7 ∧
    (StartSocksV5Server demoEnv demoConfig runToSignal).world.status = .running ∧
    demoEnv.clientClose 7 = some "use of closed network connection" ∧
    (StartSocksV5Server demoEnv demoConfig (runToSignal ++ [.main])).main = .returned ∧
    (StartSocksV5Server demoEnv demoConfig (runToSignal ++ [.main])).world.closes = [7] ∧
    (StartSocksV5Server demoEnv demoConfig (runToSignal ++ [.main])).world.status
      = .running :=
  ⟨by decide, by decide, rfl,
    (signal_closes_session_once demoEnv demoConfig runToSignal 7
      (by decide) (by decide)).2.2.1,
    (signal_closes_session_once demoEnv demoConfig runToSignal 7
      (by decide) (by decide)).2.2.2.1,
    (signal_closes_session_once demoEnv demoConfig runToSignal 7
      (by decide) (by decide)).2.2.2.2.2.1⟩

end Sockv5er
